import Mathlib

/-!
Shallow embedding of the `opensensemap` Home Assistant custom component
(`custom_components/opensensemap/{const,coordinator,config_flow,sensor}.py`).

Modelling conventions:
- Python floats are modelled as rationals (`ℚ`); the arithmetic in
  `_convert_value` is exact on the inputs of interest.
- Python `dict.get` chains over `entry.options` / `entry.data` are modelled
  with `Option` and an explicit fallback (`entryGet`).
- Python truthiness of strings (`None` and `""` are falsy) is modelled by
  `optTruthy`.
- Timestamps (`datetime.now()`) are modelled as natural numbers supplied by
  the environment; `isoformat` is an abstract injective rendering.
- The network, Home Assistant's state machine, and `float()` parsing are
  modelled as an explicit environment (`Env`): the response outcome, the
  entity-state lookup and the string-to-number parse are inputs of a cycle.
-/

namespace OpenSenseMap

/-! ## const.py -/

def API_URL_PREFIX : String := "https://api.opensensemap.org/boxes/"

/-- `API_URL.format(box_id=...)` for `API_URL = "https://api.opensensemap.org/boxes/{box_id}/data"`. -/
def apiUrlFormat (box_id : String) : String :=
  API_URL_PREFIX ++ box_id ++ "/data"

def SOFTWARE_TYPE : String := "HomeAssistant-OpenSenseMap"

def DEFAULT_UPDATE_INTERVAL : Nat := 300
def MIN_UPDATE_INTERVAL : Nat := 60

def MEASUREMENT_PM : String := "pm"
def MEASUREMENT_TEMPERATURE : String := "temperature"
def MEASUREMENT_HUMIDITY : String := "humidity"
def MEASUREMENT_PRESSURE : String := "pressure"

/-- The five fixed sensor slots of `SENSOR_CONFIGS` (the `sensor_id_*` /
`entity_*` key pairs are indexed by this kind). -/
inductive SensorKind where
  | pm25
  | pm10
  | temperature
  | humidity
  | pressure
deriving DecidableEq, Repr

/-- `SENSOR_CONFIGS`: ordered list of (slot, measurement_type); the label
column is display-only and omitted. -/
def SENSOR_CONFIGS : List (SensorKind × String) :=
  [(.pm25, MEASUREMENT_PM),
   (.pm10, MEASUREMENT_PM),
   (.temperature, MEASUREMENT_TEMPERATURE),
   (.humidity, MEASUREMENT_HUMIDITY),
   (.pressure, MEASUREMENT_PRESSURE)]

/-! ## Configuration data model

A config entry holds two string-keyed dicts, `data` and `options`.  Only the
keys the component reads are modelled, each as an `Option` field (`none` =
key absent).  `box_id` is total because `__init__` reads it with
`entry.data[CONF_BOX_ID]` (an unconditional lookup on entries created by the
config flow). -/

structure ConfData where
  box_id : String := ""
  access_token : Option String := none
  update_interval : Option Nat := none
  debug_mode : Option Bool := none
  sensorId : SensorKind → Option String := fun _ => none
  entityId : SensorKind → Option String := fun _ => none

structure ConfigEntry where
  data : ConfData := {}
  options : ConfData := {}

/-- `entry.options.get(key, entry.data.get(key))`. -/
def entryGet {α : Type} (e : ConfigEntry) (f : ConfData → Option α) : Option α :=
  match f e.options with
  | some v => some v
  | none => f e.data

/-- Python truthiness of an optional string: `None` and `""` are falsy. -/
def optTruthy (o : Option String) : Bool :=
  match o with
  | none => false
  | some s => !(s == "")

/-! ## Home Assistant states and the environment -/

/-- A Home Assistant state object: `state.state` (which may itself be `None`)
and the `unit_of_measurement` attribute. -/
structure HAState where
  state : Option String := none
  unit_of_measurement : Option String := none

/-- The outcome of the single network interaction of a push attempt.
`raised` stands for any exception not caught by `_push_sensor_data`'s own
handlers (it propagates to `_async_update_data`'s `except Exception`). -/
inductive PushOutcome where
  | http (status : Nat) (body : String)
  | timeout
  | clientError (message : String)
  | raised (message : String)

/-- Environment of one update cycle: the `hass.states.get` lookup, the
`float()` parse of a state string, the network outcome, and the clock. -/
structure Env where
  states : String → Option HAState
  parse : String → Option ℚ
  outcome : PushOutcome
  now : Nat

/-! ## Unit conversion (`_convert_value`) and value formatting -/

/-- `_convert_value(measurement_type, value, state)`; the unit is
`state.attributes.get("unit_of_measurement", "")`. -/
def convert_value (measurement_type : String) (value : ℚ) (unit_attr : Option String) : ℚ :=
  let unit := unit_attr.getD ""
  if measurement_type = MEASUREMENT_TEMPERATURE then
    if unit = "°F" ∨ unit = "F" then (value - 32) * 5 / 9
    else value
  else if measurement_type = MEASUREMENT_PRESSURE then
    if unit = "hPa" ∨ unit = "mbar" ∨ unit = "" then value * 100
    else if unit = "inHg" then value * 3386.39
    else if unit = "psi" then value * 6894.76
    else value
  else if measurement_type = MEASUREMENT_HUMIDITY then
    if value > 1 ∧ value ≤ 100 then value
    else if value ≤ 1 then value * 100
    else value
  else value

/-- Floor of a rational as an integer (`Int.fdiv` rounds towards `-∞`). -/
def ratFloor (q : ℚ) : ℤ := Int.fdiv q.num q.den

/-- Models the f-string `f"{value:.2f}"`: fixed two-decimal rendering
(rounding-mode detail of binary floats abstracted as round-half-up). -/
def formatTwoDecimals (q : ℚ) : String :=
  let cents : ℤ := ratFloor (q * 100 + 1 / 2)
  let sign : String := if cents < 0 then "-" else ""
  let a : Nat := cents.natAbs
  sign ++ toString (a / 100) ++ "." ++ (if a % 100 < 10 then "0" else "") ++ toString (a % 100)

/-! ## coordinator.py -/

/-- Mutable status fields of `OpenSenseMapCoordinator`. -/
structure Snapshot where
  url : String
  headers : List (String × String)
  payload : List (String × String)
deriving DecidableEq

structure CoordState where
  lastUpload : Option Nat := none
  lastError : Option String := none
  uploadCount : Nat := 0
  lastRequestData : Option Snapshot := none

/-- The coordinator: the live config entry plus the fields `__init__`
captures once at construction (`self._box_id`, `self._access_token`, and the
timer interval), plus the mutable status state. -/
structure Coordinator where
  entry : ConfigEntry
  boxId : String
  accessToken : Option String
  updateInterval : Nat
  state : CoordState := {}

/-- `OpenSenseMapCoordinator.__init__(hass, entry)`. -/
def mkCoordinator (entry : ConfigEntry) : Coordinator :=
  { entry := entry
    boxId := entry.data.box_id
    accessToken := entry.data.access_token
    updateInterval := (entryGet entry ConfData.update_interval).getD DEFAULT_UPDATE_INTERVAL }

/-- An options/reconfiguration update replaces the entry object the
coordinator holds; the constructed fields are untouched. -/
def entryUpdated (c : Coordinator) (e : ConfigEntry) : Coordinator :=
  { c with entry := e }

/-- The `debug_mode` property:
`entry.options.get(CONF_DEBUG_MODE, entry.data.get(CONF_DEBUG_MODE, False))`. -/
def debugMode (c : Coordinator) : Bool :=
  (entryGet c.entry ConfData.debug_mode).getD false

/-- `options.get(sensor_id_key, config_data.get(sensor_id_key))`. -/
def currentSensorId (c : Coordinator) (k : SensorKind) : Option String :=
  entryGet c.entry (fun d => d.sensorId k)

/-- `options.get(entity_key, config_data.get(entity_key))`. -/
def currentEntityId (c : Coordinator) (k : SensorKind) : Option String :=
  entryGet c.entry (fun d => d.entityId k)

/-- `next_upload` property: `last_upload + update_interval` when set. -/
def nextUpload (c : Coordinator) : Option Nat :=
  c.state.lastUpload.map (fun t => t + c.updateInterval)

/-- `state is None or state.state in ("unknown", "unavailable", None)`. -/
def stateUnavailable (s : Option HAState) : Bool :=
  match s with
  | none => true
  | some st =>
    match st.state with
    | none => true
    | some v => v == "unknown" || v == "unavailable"

/-- Body of the `_all_sensors_available` loop for one `SENSOR_CONFIGS` row:
`some entity_id` when the row appends to `unavailable`, `none` when the loop
`continue`s or the entity is fine. -/
def availEntryCheck (c : Coordinator) (env : Env) (cfg : SensorKind × String) :
    Option String :=
  match currentSensorId c cfg.1, currentEntityId c cfg.1 with
  | some sensor_id, some entity_id =>
    if sensor_id = "" ∨ entity_id = "" then none
    else if stateUnavailable (env.states entity_id) then some entity_id
    else none
  | _, _ => none

/-- `_all_sensors_available()`: `(len(unavailable) == 0, unavailable)`. -/
def all_sensors_available (c : Coordinator) (env : Env) : Bool × List String :=
  let unavailable :=
    SENSOR_CONFIGS.foldl (fun unav cfg => unav ++ (availEntryCheck c env cfg).toList) []
  (unavailable.isEmpty, unavailable)

/-- Body of the `_collect_sensor_data` loop for one `SENSOR_CONFIGS` row:
the `(sensor_id, formatted value)` pair added to `data`, or `none` on any of
the skip paths (unconfigured pair, missing/unknown/unavailable state,
unparseable value). -/
def collectEntry (c : Coordinator) (env : Env) (cfg : SensorKind × String) :
    Option (String × String) :=
  match currentSensorId c cfg.1, currentEntityId c cfg.1 with
  | some sensor_id, some entity_id =>
    if sensor_id = "" ∨ entity_id = "" then none
    else
      match env.states entity_id with
      | none => none
      | some st =>
        match st.state with
        | none => none
        | some sv =>
          if sv = "unknown" ∨ sv = "unavailable" then none
          else
            match env.parse sv with
            | none => none
            | some value =>
              some (sensor_id,
                formatTwoDecimals (convert_value cfg.2 value st.unit_of_measurement))
  | _, _ => none

/-- `_collect_sensor_data()`.  The dict is modelled as an insertion-ordered
association list; the five slots have distinct keys in any sane config, so
the dict-overwrite corner of duplicate remote ids is not modelled. -/
def collect_sensor_data (c : Coordinator) (env : Env) : List (String × String) :=
  SENSOR_CONFIGS.foldl (fun data cfg => data ++ (collectEntry c env cfg).toList) []

/-- `url = API_URL.format(box_id=self._box_id)` inside `_push_sensor_data`. -/
def pushUrl (c : Coordinator) : String := apiUrlFormat c.boxId

/-- The headers built by `_push_sensor_data`: base headers plus
`Authorization: Bearer <token>` iff `self._access_token` is truthy. -/
def pushHeaders (c : Coordinator) : List (String × String) :=
  [("Content-Type", "application/json; charset=utf-8"),
   ("User-Agent", SOFTWARE_TYPE ++ "/1.0.0")]
  ++ (if optTruthy c.accessToken then
        [("Authorization", "Bearer " ++ c.accessToken.getD "")]
      else [])

/-- `{k: v if k != "Authorization" else "***" for k, v in headers.items()}`. -/
def redactHeaders (headers : List (String × String)) : List (String × String) :=
  headers.map (fun kv => (kv.1, if kv.1 = "Authorization" then "***" else kv.2))

/-- Result of `_push_sensor_data`: either a normal `(success, message)`
return, or an exception escaping to `_async_update_data`'s handler.  Both
carry the value of `self.last_request_data` after the call (mutations before
a raise persist) and the number of network calls made. -/
inductive PushStep where
  | ok (success : Bool) (message : Option String) (snapshot : Option Snapshot)
      (networkCalls : Nat)
  | exc (message : String) (snapshot : Option Snapshot) (networkCalls : Nat)

def PushStep.snapshot : PushStep → Option Snapshot
  | .ok _ _ s _ => s
  | .exc _ s _ => s

def PushStep.networkCalls : PushStep → Nat
  | .ok _ _ _ n => n
  | .exc _ _ n => n

/-- `_push_sensor_data()`. -/
def push_sensor_data (c : Coordinator) (env : Env) : PushStep :=
  let sensor_data := collect_sensor_data c env
  if sensor_data.isEmpty then
    .ok true none c.state.lastRequestData 0
  else
    let url := pushUrl c
    let headers := pushHeaders c
    let snap :=
      if debugMode c then some ⟨url, redactHeaders headers, sensor_data⟩
      else c.state.lastRequestData
    match env.outcome with
    | .http status body =>
      if status = 200 ∨ status = 201 then .ok true none snap 1
      else .ok false (some ("HTTP " ++ toString status ++ ": " ++ body)) snap 1
    | .timeout => .ok false (some "Request timeout") snap 1
    | .clientError message => .ok false (some message) snap 1
    | .raised message => .exc message snap 1

/-- `response or "Unknown error"` applied to the failure message. -/
def orUnknownError (message : Option String) : String :=
  match message with
  | none => "Unknown error"
  | some s => if s = "" then "Unknown error" else s

/-- The read-only status snapshot `_get_status_data()` returns after each
cycle (`isoformat` rendering of timestamps abstracted as `toString`). -/
structure StatusData where
  last_upload : Option String
  last_error : Option String
  upload_count : Nat
  next_upload : Option String
  box_id : String
  last_request : Option Snapshot
deriving DecidableEq

def isoformat (t : Nat) : String := toString t

/-- `_get_status_data()`. -/
def get_status_data (c : Coordinator) : StatusData :=
  { last_upload := c.state.lastUpload.map isoformat
    last_error := c.state.lastError
    upload_count := c.state.uploadCount
    next_upload := (nextUpload c).map isoformat
    box_id := c.boxId
    last_request :=
      if debugMode c ∧ c.state.lastRequestData.isSome then c.state.lastRequestData
      else none }

/-- `_async_update_data()`: availability gate, push, status bookkeeping, and
the `except Exception` absorbing any raise.  Returns the coordinator after
the cycle, the status snapshot the cycle returns, and the number of network
calls performed. -/
def async_update_data (c : Coordinator) (env : Env) : Coordinator × StatusData × Nat :=
  match all_sensors_available c env with
  | (true, _) =>
    match push_sensor_data c env with
    | .ok true _ snap n =>
      let c1 := { c with state :=
        { c.state with
          lastUpload := some env.now
          uploadCount := c.state.uploadCount + 1
          lastError := none
          lastRequestData := snap } }
      (c1, get_status_data c1, n)
    | .ok false message snap n =>
      let c1 := { c with state :=
        { c.state with
          lastError := some (orUnknownError message)
          lastRequestData := snap } }
      (c1, get_status_data c1, n)
    | .exc message snap n =>
      let c1 := { c with state :=
        { c.state with
          lastError := some message
          lastRequestData := snap } }
      (c1, get_status_data c1, n)
  | (false, unavailable) =>
    let c1 := { c with state :=
      { c.state with
        lastError := some ("Sensors unavailable: " ++ String.intercalate ", " unavailable) } }
    (c1, get_status_data c1, 0)

/-! ## sensor.py — the status observer entity -/

def STATUS_PENDING : String := "pending"
def STATUS_OK : String := "ok"
def STATUS_ERROR : String := "error"

/-- `OpenSenseMapStatusSensor.native_value` (Python truthiness: an empty
`last_error` string is falsy; a datetime object is always truthy). -/
def native_value (c : Coordinator) : String :=
  if optTruthy c.state.lastError then STATUS_ERROR
  else if c.state.lastUpload.isSome then STATUS_OK
  else STATUS_PENDING

/-- `OpenSenseMapStatusSensor.available`. -/
def statusSensorAvailable (_c : Coordinator) : Bool := true

/-- The entity attributes built by `extra_state_attributes`; `box_id` is the
one the sensor captured from its entry at construction. -/
structure SensorAttrs where
  box_id : String
  upload_count : Nat
  last_upload : Option String
  next_upload : Option String
  last_error : Option String
  last_request : Option Snapshot
deriving DecidableEq

/-- `OpenSenseMapStatusSensor.extra_state_attributes`. -/
def extra_state_attributes (sensorBoxId : String) (c : Coordinator) : SensorAttrs :=
  { box_id := sensorBoxId
    upload_count := c.state.uploadCount
    last_upload := c.state.lastUpload.map isoformat
    next_upload := (nextUpload c).map isoformat
    last_error := if optTruthy c.state.lastError then c.state.lastError else none
    last_request :=
      if debugMode c ∧ c.state.lastRequestData.isSome then c.state.lastRequestData
      else none }

/-! ## config_flow.py -/

def isHexDigit (ch : Char) : Bool :=
  ('0' ≤ ch && ch ≤ '9') || ('a' ≤ ch && ch ≤ 'f') || ('A' ≤ ch && ch ≤ 'F')

/-- `bool(SENSOR_ID_PATTERN.match(sensor_id))` for
`SENSOR_ID_PATTERN = re.compile(r"^[a-fA-F0-9]\x7b24\x7d$")`. -/
def validate_sensor_id (sensor_id : String) : Bool :=
  sensor_id.length == 24 && sensor_id.all isHexDigit

/-- `bool(BOX_ID_PATTERN.match(box_id))` — the same 24-hex-char pattern. -/
def validate_box_id (box_id : String) : Bool :=
  box_id.length == 24 && box_id.all isHexDigit

/-- Python `str.strip()`: drop leading and trailing whitespace. -/
def pyStrip (s : String) : String :=
  ⟨((s.data.dropWhile Char.isWhitespace).reverse.dropWhile Char.isWhitespace).reverse⟩

/-- The user input of the sensors step / options step: per slot an optional
`sensor_id_*` string and an optional `entity_*` entity id. -/
structure SensorsInput where
  sensorId : SensorKind → Option String := fun _ => none
  entityId : SensorKind → Option String := fun _ => none

/-- The validation part of `OpenSenseMapConfigFlow.async_step_sensors` when
`user_input` is present: the resulting `errors["base"]` value, `none`
meaning no error, so the flow proceeds to the options step and then entry
creation. -/
def async_step_sensors (input : SensorsInput) : Option String :=
  let r := SENSOR_CONFIGS.foldl
    (fun acc cfg =>
      let sensor_id := pyStrip ((input.sensorId cfg.1).getD "")
      let entity_id := input.entityId cfg.1
      if sensor_id ≠ "" ∧ optTruthy entity_id then (true, acc.2)
      else if sensor_id ≠ "" ∨ optTruthy entity_id then
        (acc.1, some "incomplete_sensor_pair")
      else acc)
    ((false, none) : Bool × Option String)
  if !r.1 ∧ r.2 = none then some "no_sensor_configured" else r.2

/-- The validation part of `OpenSenseMapOptionsFlow.async_step_init` when
`user_input` is present: `none` means the options entry is created. -/
def options_flow_init (input : SensorsInput) : Option String :=
  let has_valid_pair := SENSOR_CONFIGS.foldl
    (fun acc cfg =>
      let raw := input.sensorId cfg.1
      let sensor_id := if optTruthy raw then pyStrip (raw.getD "") else ""
      acc || (!(sensor_id == "") && optTruthy (input.entityId cfg.1)))
    false
  if !has_valid_pair then some "no_sensor_configured" else none

/-- Proof-side abbreviation for the `self.last_request_data` value
`_push_sensor_data` leaves behind on a non-empty payload: the freshly
captured snapshot when debug mode is on, the previous value otherwise. -/
def pushSnap (c : Coordinator) (env : Env) : Option Snapshot :=
  if debugMode c then
    some ⟨pushUrl c, redactHeaders (pushHeaders c), collect_sensor_data c env⟩
  else c.state.lastRequestData

/-! ## Concrete fixtures for witnesses and counterexamples -/

def boxIdA : String := "aaaaaaaaaaaaaaaaaaaaaaaa"

def boxIdB : String := "bbbbbbbbbbbbbbbbbbbbbbbb"

def sensorIdHum : String := "0123456789abcdef01234567"

/-- A config with one active mapping entry (humidity), an access token, and
the given debug flag, all stored in `data`. -/
def sampleConf (debug : Bool) : ConfData :=
  { box_id := boxIdA
    access_token := some "secret-token"
    debug_mode := some debug
    sensorId := fun k => if k = .humidity then some sensorIdHum else none
    entityId := fun k => if k = .humidity then some "sensor.hum" else none }

def sampleEntry (debug : Bool) : ConfigEntry := { data := sampleConf debug }

def sampleCoordinator (debug : Bool) : Coordinator := mkCoordinator (sampleEntry debug)

/-- The humidity entity reports "50" percent. -/
def sampleStates : String → Option HAState := fun eid =>
  if eid = "sensor.hum" then some { state := some "50", unit_of_measurement := some "%" }
  else none

def sampleParse : String → Option ℚ := fun s => if s = "50" then some 50 else none

def sampleEnv (outcome : PushOutcome) : Env :=
  { states := sampleStates, parse := sampleParse, outcome := outcome, now := 1000 }

/-- An environment where every entity lookup fails (all sources absent). -/
def downEnv (outcome : PushOutcome) : Env :=
  { states := fun _ => none, parse := sampleParse, outcome := outcome, now := 1000 }

/-- An environment where the humidity entity is present and available but its
state string does not parse as a float, so the collector skips it and the
payload is empty. -/
def unparseableEnv (outcome : PushOutcome) : Env :=
  { states := fun eid =>
      if eid = "sensor.hum" then some { state := some "abc", unit_of_measurement := some "%" }
      else none
    parse := sampleParse
    outcome := outcome
    now := 1000 }

/-! ## Helper lemmas -/

/-- Evaluation of `_convert_value` on the humidity branch. -/
theorem convert_humidity_eval (v : ℚ) (u : Option String) :
    convert_value MEASUREMENT_HUMIDITY v u =
      if v > 1 ∧ v ≤ 100 then v else if v ≤ 1 then v * 100 else v := rfl

/-- A fold that appends the `toList` of an option-valued check is the
`filterMap` of that check. -/
theorem foldl_append_toList {α β : Type} (g : α → Option β) (l : List α) (acc : List β) :
    l.foldl (fun a x => a ++ (g x).toList) acc = acc ++ l.filterMap g := by
  induction l generalizing acc with
  | nil => simp
  | cons x xs ih => cases h : g x <;> simp [ih, h]

/-- The snapshot field left behind by `_push_sensor_data`. -/
theorem push_snapshot_eq (c : Coordinator) (env : Env) :
    (push_sensor_data c env).snapshot =
      if (collect_sensor_data c env).isEmpty then c.state.lastRequestData
      else if debugMode c then
        some ⟨pushUrl c, redactHeaders (pushHeaders c), collect_sensor_data c env⟩
      else c.state.lastRequestData := by
  unfold push_sensor_data
  by_cases h : (collect_sensor_data c env).isEmpty
  · simp [h, PushStep.snapshot]
  · cases ho : env.outcome with
    | http st b =>
      by_cases h2 : st = 200 ∨ st = 201 <;> simp [h, ho, h2, PushStep.snapshot]
    | timeout => simp [h, ho, PushStep.snapshot]
    | clientError m => simp [h, ho, PushStep.snapshot]
    | raised m => simp [h, ho, PushStep.snapshot]

/-- The snapshot after a full cycle: the availability gate leaves it alone,
otherwise the push step decides it. -/
theorem cycle_snapshot_eq (c : Coordinator) (env : Env) :
    (async_update_data c env).1.state.lastRequestData =
      if (all_sensors_available c env).1 then (push_sensor_data c env).snapshot
      else c.state.lastRequestData := by
  unfold async_update_data
  rcases hav : all_sensors_available c env with ⟨b, unav⟩
  cases b
  · simp
  · cases hps : push_sensor_data c env with
    | ok success message snap n => cases success <;> simp [hps, PushStep.snapshot]
    | exc m snap n => simp [hps, PushStep.snapshot]

/-- What `_push_sensor_data` returns on a non-empty payload, by outcome. -/
theorem push_result_eq (c : Coordinator) (env : Env)
    (hne : (collect_sensor_data c env).isEmpty = false) :
    push_sensor_data c env =
      match env.outcome with
      | .http status body =>
        if status = 200 ∨ status = 201 then .ok true none (pushSnap c env) 1
        else .ok false (some ("HTTP " ++ toString status ++ ": " ++ body)) (pushSnap c env) 1
      | .timeout => .ok false (some "Request timeout") (pushSnap c env) 1
      | .clientError message => .ok false (some message) (pushSnap c env) 1
      | .raised message => .exc message (pushSnap c env) 1 := by
  simp only [push_sensor_data, pushSnap, hne]
  rfl

/-- `_async_update_data` past the availability gate is determined by the
push result. -/
theorem cycle_result_eq (c : Coordinator) (env : Env)
    (hav : (all_sensors_available c env).1 = true) :
    async_update_data c env =
      match push_sensor_data c env with
      | .ok true _ snap n =>
        let c1 := { c with state :=
          { c.state with
            lastUpload := some env.now
            uploadCount := c.state.uploadCount + 1
            lastError := none
            lastRequestData := snap } }
        (c1, get_status_data c1, n)
      | .ok false message snap n =>
        let c1 := { c with state :=
          { c.state with
            lastError := some (orUnknownError message)
            lastRequestData := snap } }
        (c1, get_status_data c1, n)
      | .exc message snap n =>
        let c1 := { c with state :=
          { c.state with
            lastError := some message
            lastRequestData := snap } }
        (c1, get_status_data c1, n) := by
  rcases hav2 : all_sensors_available c env with ⟨b, unav⟩
  rw [hav2] at hav
  simp only at hav
  subst hav
  unfold async_update_data
  rw [hav2]

/-! ## C1 — humidity conversion -/

/-- C1 (amended): `_convert_value` on a humidity reading multiplies by 100
exactly when the value is ≤ 1 — including every value ≤ 0 — and passes every
value > 1 through unchanged.  (The claim's exemption of values ≤ 0 from
scaling does not hold; see the counterexample.) -/
theorem C1_humidity_conversion (v : ℚ) (u : Option String) :
    (v ≤ 1 → convert_value MEASUREMENT_HUMIDITY v u = v * 100) ∧
    (1 < v → convert_value MEASUREMENT_HUMIDITY v u = v) := by
  rw [convert_humidity_eval]
  constructor
  · intro h
    rw [if_neg, if_pos h]
    rintro ⟨h1, _⟩
    linarith
  · intro h
    by_cases h100 : v ≤ 100
    · rw [if_pos ⟨h, h100⟩]
    · rw [if_neg, if_neg]
      · linarith
      · rintro ⟨_, hc⟩
        exact h100 hc

/-- C1 witness: 0.45 scales to 45, 45 passes through. -/
theorem C1_witness :
    convert_value MEASUREMENT_HUMIDITY (45 / 100) (some "%") = 45 / 100 * 100 ∧
    convert_value MEASUREMENT_HUMIDITY 45 (some "%") = 45 :=
  ⟨(C1_humidity_conversion (45 / 100) (some "%")).1 (by norm_num),
   (C1_humidity_conversion 45 (some "%")).2 (by norm_num)⟩

/-- C1 counterexample: the claim says a humidity value ≤ 0 is returned
as-is, but the code multiplies −1 by 100, returning −100. -/
theorem C1_counterexample :
    convert_value MEASUREMENT_HUMIDITY (-1) (some "%") = -100 ∧
    convert_value MEASUREMENT_HUMIDITY (-1) (some "%") ≠ -1 := by
  rw [convert_humidity_eval]
  norm_num

/-! ## C2 — per-cycle configuration reads -/

/-- C2 (amended): after a configuration update replaces the entry, the next
cycle re-reads the sensor mapping and the debug flag from the updated entry,
but the push URL, the access token behind the Authorization header, and the
update interval keep the values captured when the coordinator was
constructed from the original entry. -/
theorem C2_per_cycle_config (e0 e1 : ConfigEntry) :
    pushUrl (entryUpdated (mkCoordinator e0) e1) = apiUrlFormat e0.data.box_id ∧
    (entryUpdated (mkCoordinator e0) e1).accessToken = e0.data.access_token ∧
    (entryUpdated (mkCoordinator e0) e1).updateInterval =
      (entryGet e0 ConfData.update_interval).getD DEFAULT_UPDATE_INTERVAL ∧
    debugMode (entryUpdated (mkCoordinator e0) e1) =
      (entryGet e1 ConfData.debug_mode).getD false ∧
    (∀ k, currentSensorId (entryUpdated (mkCoordinator e0) e1) k =
            entryGet e1 (fun d => d.sensorId k) ∧
          currentEntityId (entryUpdated (mkCoordinator e0) e1) k =
            entryGet e1 (fun d => d.entityId k)) :=
  ⟨rfl, rfl, rfl, rfl, fun _ => ⟨rfl, rfl⟩⟩

/-- C2 counterexample: update the entry to a different box id; the next
cycle's URL is still built from the box id captured at construction, not the
updated one, contradicting the claim. -/
theorem C2_counterexample :
    pushUrl (entryUpdated (mkCoordinator { data := { box_id := boxIdA } })
      { data := { box_id := boxIdB } }) ≠ apiUrlFormat boxIdB := by
  decide

/-! ## C3 — debug snapshot capture and redaction -/

/-- C3 (amended): with debug mode off a push attempt never touches the
snapshot (so an initially empty snapshot is never populated); with debug
mode on, a push attempt with a NON-EMPTY payload overwrites the snapshot
with {url, redacted headers, payload} regardless of the network outcome, and
any Authorization header in the snapshot carries the fixed marker "***"
instead of the raw token.  (An empty-payload attempt short-circuits before
capture; see the counterexample.) -/
theorem C3_snapshot_redaction (c : Coordinator) (env : Env) :
    (debugMode c = false → (push_sensor_data c env).snapshot = c.state.lastRequestData) ∧
    (debugMode c = false →
      (async_update_data c env).1.state.lastRequestData = c.state.lastRequestData) ∧
    (debugMode c = true → (collect_sensor_data c env).isEmpty = false →
      (push_sensor_data c env).snapshot =
        some ⟨pushUrl c, redactHeaders (pushHeaders c), collect_sensor_data c env⟩) ∧
    (∀ v, ("Authorization", v) ∈ redactHeaders (pushHeaders c) → v = "***") := by
  refine ⟨?_, ?_, ?_, ?_⟩
  · intro hd
    rw [push_snapshot_eq, hd]
    by_cases h : (collect_sensor_data c env).isEmpty <;> simp [h]
  · intro hd
    rw [cycle_snapshot_eq, push_snapshot_eq, hd]
    by_cases hav : (all_sensors_available c env).1 <;>
      by_cases h : (collect_sensor_data c env).isEmpty <;> simp [h, hav]
  · intro hd hne
    rw [push_snapshot_eq, hd, hne]
    simp
  · intro v hv
    simp only [redactHeaders, List.mem_map] at hv
    obtain ⟨⟨k0, v0⟩, _, heq⟩ := hv
    have hk : k0 = "Authorization" := by
      have := congrArg Prod.fst heq
      simpa using this
    have := congrArg Prod.snd heq
    simp only [hk, if_pos rfl] at this
    exact this.symm

/-- C3 witness: a debug-on timeout attempt captures the snapshot; a
debug-off attempt leaves it untouched. -/
theorem C3_witness :
    (push_sensor_data (sampleCoordinator true) (sampleEnv .timeout)).snapshot =
      some ⟨pushUrl (sampleCoordinator true),
            redactHeaders (pushHeaders (sampleCoordinator true)),
            collect_sensor_data (sampleCoordinator true) (sampleEnv .timeout)⟩ ∧
    (push_sensor_data (sampleCoordinator false) (sampleEnv .timeout)).snapshot =
      (sampleCoordinator false).state.lastRequestData :=
  ⟨(C3_snapshot_redaction (sampleCoordinator true) (sampleEnv .timeout)).2.2.1 rfl rfl,
   (C3_snapshot_redaction (sampleCoordinator false) (sampleEnv .timeout)).1 rfl⟩

/-- C3 counterexample: with debug mode on, a push attempt whose payload is
empty (available but unparseable source) returns before the capture point,
so the snapshot stays unpopulated — the claim's "captured ... on that
attempt regardless of the push outcome" fails for this attempt. -/
theorem C3_counterexample :
    debugMode (sampleCoordinator true) = true ∧
    (async_update_data (sampleCoordinator true)
      (unparseableEnv .timeout)).1.state.lastRequestData = none := by
  constructor
  · rfl
  · rfl

/-! ## C4 — sensor id validation -/

/-- C4: the 24-hex-char pattern exists (`validate_sensor_id`) and rejects a
non-matching id, but neither the sensors step of the config flow nor the
options flow ever calls it: an input whose pm2.5 remote sensor id is the
non-hex string "zz" paired with an entity produces no validation error in
either flow, and the flow proceeds to create the entry. -/
theorem C4_sensor_id_never_validated :
    validate_sensor_id "zz" = false ∧
    async_step_sensors
      { sensorId := fun k => if k = .pm25 then some "zz" else none
        entityId := fun k => if k = .pm25 then some "sensor.pm25" else none } = none ∧
    options_flow_init
      { sensorId := fun k => if k = .pm25 then some "zz" else none
        entityId := fun k => if k = .pm25 then some "sensor.pm25" else none } = none := by
  refine ⟨rfl, rfl, rfl⟩

/-! ## C5 — availability gate -/

/-- C5: the availability gate checks exactly the entries whose sensor id and
entity id are both configured (truthy); when any checked entry resolves to a
missing state object or an unknown/unavailable state, the cycle sets
`last_error` to "Sensors unavailable: " followed by the comma-joined entity
ids, performs zero network calls, and leaves `last_upload`, `upload_count`
and the request snapshot untouched. -/
theorem C5_availability_gate (c : Coordinator) (env : Env) :
    (all_sensors_available c env).2 = SENSOR_CONFIGS.filterMap (availEntryCheck c env) ∧
    (∀ cfg, optTruthy (currentSensorId c cfg.1) = false ∨
            optTruthy (currentEntityId c cfg.1) = false →
      availEntryCheck c env cfg = none) ∧
    ((all_sensors_available c env).1 = false →
      (async_update_data c env).1.state.lastError =
        some ("Sensors unavailable: " ++
          String.intercalate ", " (all_sensors_available c env).2) ∧
      (async_update_data c env).2.2 = 0 ∧
      (async_update_data c env).1.state.lastUpload = c.state.lastUpload ∧
      (async_update_data c env).1.state.uploadCount = c.state.uploadCount ∧
      (async_update_data c env).1.state.lastRequestData = c.state.lastRequestData) := by
  refine ⟨?_, ?_, ?_⟩
  · unfold all_sensors_available
    rw [foldl_append_toList]
    simp
  · intro cfg h
    unfold availEntryCheck
    cases hs : currentSensorId c cfg.1 with
    | none => rfl
    | some sid =>
      cases he : currentEntityId c cfg.1 with
      | none => rfl
      | some eid =>
        rw [hs, he] at h
        simp only [optTruthy] at h
        have hz : sid = "" ∨ eid = "" := by
          rcases h with h | h
          · left
            simpa using h
          · right
            simpa using h
        simp [hz]
  · intro hf
    rcases hav : all_sensors_available c env with ⟨b, unav⟩
    rw [hav] at hf
    simp only at hf
    subst hf
    unfold async_update_data
    rw [hav]
    simp

/-- C5 witness: with the one active humidity source absent, the cycle aborts
with the expected message and makes no network call. -/
theorem C5_witness :
    (all_sensors_available (sampleCoordinator false) (downEnv .timeout)).1 = false ∧
    (async_update_data (sampleCoordinator false)
        (downEnv .timeout)).1.state.lastError =
      some "Sensors unavailable: sensor.hum" ∧
    (async_update_data (sampleCoordinator false) (downEnv .timeout)).2.2 = 0 := by
  have h := (C5_availability_gate (sampleCoordinator false) (downEnv .timeout)).2.2 rfl
  exact ⟨rfl, h.1.trans (by rfl), h.2.1⟩

/-! ## C6 — failure bookkeeping -/

/-- C6 (amended): past the availability gate and with a non-empty payload, a
failed cycle records `last_error` as "HTTP {status}: {body}" for a non-2xx
status, "Request timeout" on timeout, the stringified transport error when it
is non-empty — an EMPTY stringified transport error is recorded as
"Unknown error" — and the stringified exception for an uncaught exception,
while `last_upload` and `upload_count` keep their pre-cycle values in every
one of these failure cases. -/
theorem C6_failure_frame (c : Coordinator) (env : Env)
    (hav : (all_sensors_available c env).1 = true)
    (hne : (collect_sensor_data c env).isEmpty = false) :
    (∀ st b, env.outcome = .http st b → ¬(st = 200 ∨ st = 201) →
      (async_update_data c env).1.state.lastError =
        some ("HTTP " ++ toString st ++ ": " ++ b) ∧
      (async_update_data c env).1.state.lastUpload = c.state.lastUpload ∧
      (async_update_data c env).1.state.uploadCount = c.state.uploadCount) ∧
    (env.outcome = .timeout →
      (async_update_data c env).1.state.lastError = some "Request timeout" ∧
      (async_update_data c env).1.state.lastUpload = c.state.lastUpload ∧
      (async_update_data c env).1.state.uploadCount = c.state.uploadCount) ∧
    (∀ m, env.outcome = .clientError m → m ≠ "" →
      (async_update_data c env).1.state.lastError = some m ∧
      (async_update_data c env).1.state.lastUpload = c.state.lastUpload ∧
      (async_update_data c env).1.state.uploadCount = c.state.uploadCount) ∧
    (env.outcome = .clientError "" →
      (async_update_data c env).1.state.lastError = some "Unknown error" ∧
      (async_update_data c env).1.state.lastUpload = c.state.lastUpload ∧
      (async_update_data c env).1.state.uploadCount = c.state.uploadCount) ∧
    (∀ m, env.outcome = .raised m →
      (async_update_data c env).1.state.lastError = some m ∧
      (async_update_data c env).1.state.lastUpload = c.state.lastUpload ∧
      (async_update_data c env).1.state.uploadCount = c.state.uploadCount) := by
  have hp := push_result_eq c env hne
  have hc := cycle_result_eq c env hav
  refine ⟨?_, ?_, ?_, ?_, ?_⟩
  · intro st b ho hst
    rw [ho] at hp
    simp only [hst, if_false, ite_false] at hp
    rw [hp] at hc
    rw [hc]
    have hemp : ("HTTP " ++ toString st ++ ": " ++ b) ≠ "" := by
      intro h
      have h2 := congrArg String.data h
      simp [String.data_append] at h2
    simp [orUnknownError, hemp]
  · intro ho
    rw [ho] at hp
    simp only at hp
    rw [hp] at hc
    rw [hc]
    simp [orUnknownError]
  · intro m ho hm
    rw [ho] at hp
    simp only at hp
    rw [hp] at hc
    rw [hc]
    simp [orUnknownError, hm]
  · intro ho
    rw [ho] at hp
    simp only at hp
    rw [hp] at hc
    rw [hc]
    simp [orUnknownError]
  · intro m ho
    rw [ho] at hp
    simp only at hp
    rw [hp] at hc
    rw [hc]
    simp

/-- C6 witness: a timeout cycle records "Request timeout" and leaves the
upload counter at its pre-cycle value. -/
theorem C6_witness :
    (async_update_data (sampleCoordinator false)
        (sampleEnv .timeout)).1.state.lastError = some "Request timeout" ∧
    (async_update_data (sampleCoordinator false)
        (sampleEnv .timeout)).1.state.uploadCount = 0 := by
  have h := (C6_failure_frame (sampleCoordinator false) (sampleEnv .timeout) rfl rfl).2.1 rfl
  exact ⟨h.1, h.2.2⟩

/-- C6 counterexample: a transport error whose stringification is the empty
string is recorded as "Unknown error" (`response or "Unknown error"`), not
as the stringified error the claim prescribes. -/
theorem C6_counterexample :
    (async_update_data (sampleCoordinator false)
        (sampleEnv (.clientError ""))).1.state.lastError = some "Unknown error" ∧
    (async_update_data (sampleCoordinator false)
        (sampleEnv (.clientError ""))).1.state.lastError ≠ some "" := by
  have h : (async_update_data (sampleCoordinator false)
      (sampleEnv (.clientError ""))).1.state.lastError = some "Unknown error" := rfl
  refine ⟨h, ?_⟩
  rw [h]
  simp

/-! ## C7 — empty payload -/

/-- C7: when the collector yields an empty payload (and the availability
gate passed), the push returns success with zero network calls and the
cycle books an upload success: the counter increments, the upload time is
set to now, and the error is cleared. -/
theorem C7_empty_payload (c : Coordinator) (env : Env)
    (hav : (all_sensors_available c env).1 = true)
    (hemp : (collect_sensor_data c env).isEmpty = true) :
    push_sensor_data c env = .ok true none c.state.lastRequestData 0 ∧
    (async_update_data c env).1.state.uploadCount = c.state.uploadCount + 1 ∧
    (async_update_data c env).1.state.lastUpload = some env.now ∧
    (async_update_data c env).1.state.lastError = none ∧
    (async_update_data c env).2.2 = 0 := by
  have hpush : push_sensor_data c env = .ok true none c.state.lastRequestData 0 := by
    unfold push_sensor_data
    simp [hemp]
  have hc := cycle_result_eq c env hav
  rw [hpush] at hc
  simp only at hc
  rw [hc]
  exact ⟨hpush, rfl, rfl, rfl, rfl⟩

/-- C7 witness: an available but unparseable source yields an empty payload;
the cycle still counts as a successful upload with no network call, even
though the (never consulted) network would have answered 500. -/
theorem C7_witness :
    (async_update_data (sampleCoordinator false)
        (unparseableEnv (.http 500 "boom"))).1.state.uploadCount = 1 ∧
    (async_update_data (sampleCoordinator false)
        (unparseableEnv (.http 500 "boom"))).1.state.lastUpload = some 1000 ∧
    (async_update_data (sampleCoordinator false)
        (unparseableEnv (.http 500 "boom"))).1.state.lastError = none ∧
    (async_update_data (sampleCoordinator false)
        (unparseableEnv (.http 500 "boom"))).2.2 = 0 := by
  have h := C7_empty_payload (sampleCoordinator false) (unparseableEnv (.http 500 "boom")) rfl rfl
  exact ⟨h.2.1, h.2.2.1, h.2.2.2.1, h.2.2.2.2⟩

/-! ## C8 — cycles never raise -/

/-- C8: the cycle function is total in the model — it always returns the
status snapshot of its post-state — and an exception escaping the push step
is absorbed into `last_error` by the surrounding handler instead of
propagating. -/
theorem C8_cycle_never_raises (c : Coordinator) (env : Env) :
    (async_update_data c env).2.1 = get_status_data (async_update_data c env).1 ∧
    (∀ m snap n, (all_sensors_available c env).1 = true →
      push_sensor_data c env = .exc m snap n →
      (async_update_data c env).1.state.lastError = some m) := by
  constructor
  · unfold async_update_data
    rcases hav : all_sensors_available c env with ⟨b, unav⟩
    cases b
    · simp
    · cases hps : push_sensor_data c env with
      | ok success message snap n => cases success <;> simp [hps]
      | exc m snap n => simp [hps]
  · intro m snap n hav hps
    have hc := cycle_result_eq c env hav
    rw [hps] at hc
    simp only at hc
    rw [hc]

/-- C8 witness: a raised exception with message "boom" ends the cycle with
`last_error = "boom"` and a normal status snapshot. -/
theorem C8_witness :
    (async_update_data (sampleCoordinator false)
        (sampleEnv (.raised "boom"))).1.state.lastError = some "boom" ∧
    (async_update_data (sampleCoordinator false) (sampleEnv (.raised "boom"))).2.1 =
      get_status_data (async_update_data (sampleCoordinator false)
        (sampleEnv (.raised "boom"))).1 := by
  have h := C8_cycle_never_raises (sampleCoordinator false) (sampleEnv (.raised "boom"))
  exact ⟨h.2 "boom" none 1 rfl rfl, h.1⟩

/-! ## C9 — status observer -/

/-- C9 (amended): the observer state is "error" when `last_error` is a
NON-EMPTY string, else "ok" when `last_upload` is set, else "pending", and
the observer is available in every state.  (An empty-string `last_error` is
falsy in Python and does not produce "error"; see the counterexample.) -/
theorem C9_status_observer (c : Coordinator) :
    (∀ m, c.state.lastError = some m → m ≠ "" → native_value c = STATUS_ERROR) ∧
    (optTruthy c.state.lastError = false → c.state.lastUpload.isSome = true →
      native_value c = STATUS_OK) ∧
    (optTruthy c.state.lastError = false → c.state.lastUpload = none →
      native_value c = STATUS_PENDING) ∧
    statusSensorAvailable c = true := by
  refine ⟨?_, ?_, ?_, rfl⟩
  · intro m hm hne
    have ht : optTruthy c.state.lastError = true := by
      rw [hm]
      simp [optTruthy, hne]
    simp [native_value, ht]
  · intro h1 h2
    simp [native_value, h1, h2]
  · intro h1 h2
    simp [native_value, h1, h2]

/-- C9 witness: a coordinator with a non-empty `last_error` reports "error"
and stays available. -/
theorem C9_witness :
    native_value { sampleCoordinator false with state := { lastError := some "boom" } } =
      STATUS_ERROR ∧
    statusSensorAvailable
      { sampleCoordinator false with state := { lastError := some "boom" } } = true := by
  have h := C9_status_observer { sampleCoordinator false with state := { lastError := some "boom" } }
  exact ⟨h.1 "boom" rfl (by decide), h.2.2.2⟩

/-- C9 counterexample: a cycle whose exception stringifies to "" leaves
`last_error` set to the empty string, yet the observer reports "pending",
not "error" — the claim's "error whenever last_error is set" fails on this
reachable state. -/
theorem C9_counterexample :
    (async_update_data (sampleCoordinator false)
        (sampleEnv (.raised ""))).1.state.lastError = some "" ∧
    native_value (async_update_data (sampleCoordinator false)
        (sampleEnv (.raised ""))).1 = STATUS_PENDING ∧
    STATUS_PENDING ≠ STATUS_ERROR := by
  refine ⟨rfl, rfl, by decide⟩

/-! ## C10 — snapshot persistence -/

/-- C10: a captured snapshot is never cleared by a cycle; with debug mode
off the status data and the observer attributes omit it while the state
keeps it, and with debug mode (re-)enabled the stored snapshot — stale or
not — is exposed as-is. -/
theorem C10_snapshot_never_cleared (c : Coordinator) (env : Env) :
    (c.state.lastRequestData.isSome = true →
      (async_update_data c env).1.state.lastRequestData.isSome = true) ∧
    (debugMode c = false →
      (get_status_data c).last_request = none ∧
      (extra_state_attributes c.boxId c).last_request = none ∧
      (async_update_data c env).1.state.lastRequestData = c.state.lastRequestData) ∧
    (∀ s, debugMode c = true → c.state.lastRequestData = some s →
      (get_status_data c).last_request = some s ∧
      (extra_state_attributes c.boxId c).last_request = some s) := by
  refine ⟨?_, ?_, ?_⟩
  · intro hs
    rw [cycle_snapshot_eq, push_snapshot_eq]
    by_cases hav : (all_sensors_available c env).1 <;>
      by_cases he : (collect_sensor_data c env).isEmpty <;>
      by_cases hd : debugMode c <;>
      simp [hav, he, hd, hs]
  · intro hd
    refine ⟨?_, ?_, ?_⟩
    · simp [get_status_data, hd]
    · simp [extra_state_attributes, hd]
    · rw [cycle_snapshot_eq, push_snapshot_eq, hd]
      by_cases hav : (all_sensors_available c env).1 <;>
        by_cases he : (collect_sensor_data c env).isEmpty <;>
        simp [hav, he]
  · intro s hd hsnap
    constructor
    · simp [get_status_data, hd, hsnap]
    · simp [extra_state_attributes, hd, hsnap]

/-- C10 witness: a stored snapshot is exposed when debug is on and survives
a debug-off cycle. -/
theorem C10_witness :
    (get_status_data { sampleCoordinator true with
        state := { lastRequestData := some ⟨"u", [], []⟩ } }).last_request =
      some ⟨"u", [], []⟩ ∧
    (async_update_data { sampleCoordinator false with
        state := { lastRequestData := some ⟨"u", [], []⟩ } }
      (sampleEnv .timeout)).1.state.lastRequestData.isSome = true := by
  have h1 := (C10_snapshot_never_cleared
    { sampleCoordinator true with state := { lastRequestData := some ⟨"u", [], []⟩ } }
    (sampleEnv .timeout)).2.2 ⟨"u", [], []⟩ rfl rfl
  have h2 := (C10_snapshot_never_cleared
    { sampleCoordinator false with state := { lastRequestData := some ⟨"u", [], []⟩ } }
    (sampleEnv .timeout)).1 rfl
  exact ⟨h1.1, h2⟩

end OpenSenseMap
